import Mathlib

/-!
Verification development for the ScrAI actor cognitive-action loop.

The Python sources are embedded shallowly:
* Python values that flow through action dictionaries are modelled by `PyVal`
  (floats as exact rationals, dicts as insertion-ordered association lists).
* Python exceptions are modelled by `PyErr`; fallible operations return `Except`.
* Mutation of the actor record is modelled by explicit state passing: a handler
  returns the (possibly partially updated) actor next to its `Except` result.
-/

/-- A Python runtime value as it appears in action dictionaries and actor state
(`src/engine/systems/action_system/action_system.py` operates on untyped dicts).
Floats are embedded as exact rationals; dicts are insertion-ordered assoc lists. -/
inductive PyVal : Type where
  | str : String → PyVal
  | int : Int → PyVal
  | float : ℚ → PyVal
  | bool : Bool → PyVal
  | none : PyVal
  | list : List PyVal → PyVal
  | dict : List (String × PyVal) → PyVal

/-- Python `v == "lit"` for a string literal: true exactly when `v` is that
string (comparison of a non-string with a string is `False`, never an error). -/
def PyVal.eqStr : PyVal → String → Bool
  | .str a, b => a == b
  | _, _ => false

/-- A Python exception, carrying its message (`str(e)` in the source). -/
inductive PyErr : Type where
  | attributeError : String → PyErr
  | typeError : String → PyErr
  | valueError : String → PyErr
  | keyError : String → PyErr
deriving DecidableEq, Repr

/-- `str(e)` for an exception: the carried message. -/
def PyErr.msg : PyErr → String
  | .attributeError m => m
  | .typeError m => m
  | .valueError m => m
  | .keyError m => m

/-- Boolean infix test on character lists. -/
def isInfixB (pat : List Char) : List Char → Bool
  | [] => pat.isEmpty
  | c :: rest => pat.isPrefixOf (c :: rest) || isInfixB pat rest

/-- Substring test: Python `pat in s` for strings. -/
def strContainsB (s pat : String) : Bool :=
  isInfixB pat.data s.data

/-- A fixed rendering of an embedded float, used where Python interpolates a
float into an f-string. The exact digits are an embedding choice; no claim
depends on them. -/
def ratStr (q : ℚ) : String :=
  toString q.num ++ "/" ++ toString q.den

mutual

/-- Python `str(v)` / f-string interpolation of a value. -/
def pyStr : PyVal → String
  | .str s => s
  | .int n => toString n
  | .float q => ratStr q
  | .bool b => if b then "True" else "False"
  | .none => "None"
  | .list xs => "[" ++ pyStrList xs ++ "]"
  | .dict kvs => "\x7b" ++ pyStrDict kvs ++ "\x7d"

/-- Comma-joined rendering of a Python list body. -/
def pyStrList : List PyVal → String
  | [] => ""
  | [x] => pyStr x
  | x :: xs => pyStr x ++ ", " ++ pyStrList xs

/-- Comma-joined rendering of a Python dict body. -/
def pyStrDict : List (String × PyVal) → String
  | [] => ""
  | [(k, v)] => k ++ ": " ++ pyStr v
  | (k, v) :: kvs => k ++ ": " ++ pyStr v ++ ", " ++ pyStrDict kvs

end

/-- Python `d.get(k, default)` on a dict represented as an assoc list. -/
def dictGetD (d : List (String × PyVal)) (k : String) (dflt : PyVal) : PyVal :=
  (d.lookup k).getD dflt

/-- Python `d[k] = v`: replace the value if the key exists, else append
(insertion order preserved, as for Python dicts). -/
def dictSet (d : List (String × PyVal)) (k : String) (v : PyVal) :
    List (String × PyVal) :=
  if d.any (fun p => p.1 == k) then
    d.map (fun p => if p.1 == k then (k, v) else p)
  else
    d ++ [(k, v)]

/-- Python `s.lower()` on a string, mapped character-wise (a
reduction-friendly model of lower-casing). -/
def strLower (s : String) : String :=
  ⟨s.data.map Char.toLower⟩

/-- Python `v.lower()`: succeeds only on strings, otherwise AttributeError. -/
def pyLowerE : PyVal → Except PyErr String
  | .str s => .ok (strLower s)
  | _ => .error (.attributeError "object has no attribute lower")

/-- Python `key in container`: key test on dicts, `==`-based membership on
lists, substring on strings; TypeError on non-container values. -/
def pyContainsE (container : PyVal) (key : String) : Except PyErr Bool :=
  match container with
  | .dict kvs => .ok (kvs.lookup key).isSome
  | .list xs => .ok (xs.any (fun v => v.eqStr key))
  | .str s => .ok (strContainsB s key)
  | _ => .error (.typeError "argument of type is not iterable")

/-- Pydantic coercion of an assigned emotion value to `float`
(`Dict[str, float]` with `validate_assignment = True` in
`src/configurations/schemas/actor_schema.py`). -/
def asFloat : PyVal → Option ℚ
  | .float q => some q
  | .int n => some (n : ℚ)
  | _ => Option.none

/-- Python `d[k] = v` on the float-valued emotions dict. -/
def dictSetQ (d : List (String × ℚ)) (k : String) (v : ℚ) : List (String × ℚ) :=
  if d.any (fun p => p.1 == k) then
    d.map (fun p => if p.1 == k then (k, v) else p)
  else
    d ++ [(k, v)]

/-! ## Actor data model (`src/configurations/schemas/actor_schema.py`) -/

/-- A goal of an actor (`Goal` in `actor_schema.py`); only the fields the loop
reads and writes are kept. -/
structure Goal : Type where
  description : String
  status : String := "pending"
  priority : Int := 0

/-- The mind of an actor (`CognitiveCore` in `actor_schema.py`): emotions are a
`Dict[str, float]`, short-term memory a `List[str]`. -/
structure CognitiveCore : Type where
  current_goals : List Goal := []
  emotions : List (String × ℚ) := []
  short_term_memory : List String := []

/-- An actor (`Actor` in `actor_schema.py`): name, optional description,
free-form state dict, properties dict, and a cognitive core. -/
structure ActorData : Type where
  name : String
  description : Option String := Option.none
  properties : List (String × PyVal) := []
  state : List (String × PyVal) := []
  cognitive_core : CognitiveCore := {}

/-- `actor.cognitive_core.short_term_memory.append(entry)` as a pure update. -/
def addMemory (actor : ActorData) (entry : String) : ActorData :=
  { actor with cognitive_core :=
    { actor.cognitive_core with short_term_memory :=
        actor.cognitive_core.short_term_memory ++ [entry] } }

/-- `short_term_memory.extend(entries)` as a pure update. -/
def extendMemory (actor : ActorData) (entries : List String) : ActorData :=
  { actor with cognitive_core :=
    { actor.cognitive_core with short_term_memory :=
        actor.cognitive_core.short_term_memory ++ entries } }

/-! ## Action system (`src/engine/systems/action_system/action_system.py`) -/

/-- `ActionResult` enum: outcome of action execution. -/
inductive ActionResult : Type where
  | success
  | failed
  | blocked
  | invalid
deriving DecidableEq, Repr

/-- `ActionOutcome` dataclass: result of executing an action.  `__post_init__`
replaces `None` state changes and events with empty containers, so both default
to empty here. -/
structure ActionOutcome : Type where
  result : ActionResult
  message : String
  state_changes : List (String × PyVal) := []
  events_generated : List PyVal := []

/-- An action handler: takes the parameters value and the actor, and returns
either an outcome or a raised exception, next to the (possibly partially
mutated) actor. -/
abbrev Handler := PyVal → ActorData → Except PyErr ActionOutcome × ActorData

/-- Render an emotion-changes mapping as the Python dict value stored under the
`"emotion_changes"` key of `state_changes`. -/
def floatDict (l : List (String × ℚ)) : PyVal :=
  .dict (l.map (fun p => (p.1, .float p.2)))

/-- Tiered fear reduction in `_handle_pray`:
`0.1 if intensity == "low" else 0.2 if intensity == "medium" else 0.3`. -/
def prayFearReduction (intensity : PyVal) : ℚ :=
  if intensity.eqStr "low" then 1/10
  else if intensity.eqStr "medium" then 2/10
  else 3/10

/-- Tiered determination increase in `_handle_pray`:
`0.1 if intensity == "low" else 0.15 if intensity == "medium" else 0.2`. -/
def prayDeterminationIncrease (intensity : PyVal) : ℚ :=
  if intensity.eqStr "low" then 1/10
  else if intensity.eqStr "medium" then 3/20
  else 1/5

/-- The `emotion_changes` dict built by `_handle_pray` (lines 207-216):
fear is clamped below at 0, determination clamped above at 1.0. -/
def prayEmotionChanges (emotions : List (String × ℚ)) (intensity : PyVal) :
    List (String × ℚ) :=
  (match emotions.lookup "fear" with
   | some f => [("fear", max 0 (f - prayFearReduction intensity))]
   | Option.none => []) ++
  (match emotions.lookup "determination" with
   | some d => [("determination", min 1 (d + prayDeterminationIncrease intensity))]
   | Option.none => [])

/-- `_handle_pray`: affects spiritual state, reduces fear, raises determination,
appends a memory entry. -/
def handle_pray : Handler := fun params actor =>
  match params with
  | .dict pkvs =>
    let intensity := dictGetD pkvs "intensity" (.str "medium")
    let duration := dictGetD pkvs "duration" (.str "short")
    let current_spiritual := dictGetD actor.state "spiritual_state" (.str "neutral")
    let spiritual : PyVal :=
      if current_spiritual.eqStr "in_vision" then .str "praying_during_vision"
      else .str "praying"
    let emotion_changes := prayEmotionChanges actor.cognitive_core.emotions intensity
    let memory_entry :=
      "Prayed with " ++ pyStr intensity ++ " intensity for " ++ pyStr duration ++ " duration"
    (.ok { result := .success,
           message := actor.name ++ " prays with " ++ pyStr intensity ++ " intensity",
           state_changes := [("spiritual_state", spiritual),
                             ("emotion_changes", floatDict emotion_changes)] },
     addMemory actor memory_entry)
  | _ => (.error (.attributeError "object has no attribute get"), actor)

/-- `_handle_compose_prayer`. -/
def handle_compose_prayer : Handler := fun params actor =>
  match params with
  | .dict pkvs =>
    let topic := dictGetD pkvs "topic" (.str "general guidance")
    let style := dictGetD pkvs "style" (.str "formal")
    let memory_entry := "Composed a " ++ pyStr style ++ " prayer about " ++ pyStr topic
    (.ok { result := .success,
           message := actor.name ++ " composes a " ++ pyStr style ++ " prayer about " ++ pyStr topic,
           state_changes := [("last_prayer_topic", topic)] },
     addMemory actor memory_entry)
  | _ => (.error (.attributeError "object has no attribute get"), actor)

/-- `_handle_record_vision`: appends to memory first, then concatenates the new
detail onto any existing `vision_records` value in actor state; a non-list
existing value makes the `+` concatenation raise (after the memory append). -/
def handle_record_vision : Handler := fun params actor =>
  match params with
  | .dict pkvs =>
    let detail := dictGetD pkvs "detail" (.str "general impression")
    let method := dictGetD pkvs "method" (.str "mental note")
    let memory_entry :=
      "Recorded vision detail: " ++ pyStr detail ++ " (via " ++ pyStr method ++ ")"
    let actor1 := addMemory actor memory_entry
    let records : Except PyErr PyVal :=
      match actor.state.lookup "vision_records" with
      | Option.none => .ok (.list [detail])
      | some existing =>
        match existing with
        | .list xs => .ok (.list (xs ++ [detail]))
        | _ => .error (.typeError "can only concatenate list")
    match records with
    | .error e => (.error e, actor1)
    | .ok recs =>
      (.ok { result := .success,
             message := actor.name ++ " records vision detail: " ++ pyStr detail,
             state_changes := [("vision_records", recs)] },
       actor1)
  | _ => (.error (.attributeError "object has no attribute get"), actor)

/-- `_handle_speak`. -/
def handle_speak : Handler := fun params actor =>
  match params with
  | .dict pkvs =>
    let message := dictGetD pkvs "message" (.str "...")
    let tone := dictGetD pkvs "tone" (.str "normal")
    let _target := dictGetD pkvs "target" (.str "general")
    let memory_entry :=
      "Spoke with " ++ pyStr tone ++ " tone: \x27" ++ pyStr message ++ "\x27"
    (.ok { result := .success,
           message := actor.name ++ " speaks (" ++ pyStr tone ++ "): \x27" ++ pyStr message ++ "\x27",
           state_changes := [("last_spoken", message)] },
     addMemory actor memory_entry)
  | _ => (.error (.attributeError "object has no attribute get"), actor)

/-- The observation list built by `_handle_observe_surroundings`. -/
def observationsFor (current_location : PyVal) (focus : PyVal) : List String :=
  let base :=
    if strContainsB (strLower (pyStr current_location)) "chapel" then
      ["Dim candlelight flickers on stone walls",
       "Religious iconography adorns the walls",
       "A sense of ancient sanctity pervades the space",
       "Shadows dance in the corners"]
    else
      ["The immediate surroundings are unclear",
       "The environment seems spiritually charged"]
  if !(focus.eqStr "general") then
    base ++ ["Focusing particularly on: " ++ pyStr focus]
  else base

/-- `_handle_observe_surroundings`: builds observations from the current
location, appends a narration entry plus the first two observations to memory. -/
def handle_observe_surroundings : Handler := fun params actor =>
  match params with
  | .dict pkvs =>
    let focus := dictGetD pkvs "focus" (.str "general")
    let detail_level := dictGetD pkvs "detail_level" (.str "normal")
    let current_location := dictGetD actor.state "current_location_id" (.str "unknown")
    let observations := observationsFor current_location focus
    let memory_entry := "Observed surroundings with " ++ pyStr detail_level ++ " attention"
    let actor1 := extendMemory (addMemory actor memory_entry) (observations.take 2)
    (.ok { result := .success,
           message := actor.name ++ " observes surroundings. Sees: "
             ++ String.intercalate "; " (observations.take 2),
           state_changes := [("recent_observations", .list (observations.map .str))] },
     actor1)
  | _ => (.error (.attributeError "object has no attribute get"), actor)

/-- The emotion label derived in `_handle_show_emotion` (line 322):
`action_name.replace("show_emotion_", "") if "show_emotion_" in action_name
else "neutral"`; the `in` test raises on non-container values. -/
def showEmotionType (action_name : PyVal) : Except PyErr String :=
  match pyContainsE action_name "show_emotion_" with
  | .error e => .error e
  | .ok true =>
    match action_name with
    | .str s => .ok (s.replace "show_emotion_" "")
    | _ => .error (.attributeError "object has no attribute replace")
  | .ok false => .ok "neutral"

/-- `intensity_value` in `_handle_show_emotion`:
`0.3 if intensity == "low" else 0.5 if intensity == "medium" else 0.8`. -/
def showEmotionIntensityValue (intensity : PyVal) : ℚ :=
  if intensity.eqStr "low" then 3/10
  else if intensity.eqStr "medium" then 1/2
  else 4/5

/-- The `emotion_changes` dict built by `_handle_show_emotion` (lines 326-332):
an existing emotion is bumped by 0.1 and clamped at 1.0, a fresh one is set to
the intensity value. -/
def showEmotionChanges (emotions : List (String × ℚ)) (emotion_type : String)
    (intensity : PyVal) : List (String × ℚ) :=
  match emotions.lookup emotion_type with
  | some v => [(emotion_type, min 1 (v + 1/10))]
  | Option.none => [(emotion_type, showEmotionIntensityValue intensity)]

/-- `_handle_show_emotion`: the shared handler for all `show_emotion_*`
actions; the emotion comes from the `original_action` parameter. -/
def handle_show_emotion : Handler := fun params actor =>
  match params with
  | .dict pkvs =>
    let action_name := dictGetD pkvs "original_action" (.str "show_emotion")
    let intensity := dictGetD pkvs "intensity" (.str "medium")
    match showEmotionType action_name with
    | .error e => (.error e, actor)
    | .ok emotion_type =>
      let emotion_changes :=
        showEmotionChanges actor.cognitive_core.emotions emotion_type intensity
      let memory_entry :=
        "Expressed " ++ emotion_type ++ " with " ++ pyStr intensity ++ " intensity"
      (.ok { result := .success,
             message := actor.name ++ " shows " ++ emotion_type
               ++ " (" ++ pyStr intensity ++ " intensity)",
             state_changes := [("emotion_changes", floatDict emotion_changes)] },
       addMemory actor memory_entry)
  | _ => (.error (.attributeError "object has no attribute get"), actor)

/-- `_handle_think`. -/
def handle_think : Handler := fun params actor =>
  match params with
  | .dict pkvs =>
    let topic := dictGetD pkvs "topic" (.str "current situation")
    let depth := dictGetD pkvs "depth" (.str "surface")
    let memory_entry := "Contemplated " ++ pyStr topic ++ " with " ++ pyStr depth ++ " depth"
    (.ok { result := .success,
           message := actor.name ++ " thinks deeply about " ++ pyStr topic,
           state_changes := [("last_thought_topic", topic)] },
     addMemory actor memory_entry)
  | _ => (.error (.attributeError "object has no attribute get"), actor)

/-- `_handle_wait`. -/
def handle_wait : Handler := fun params actor =>
  match params with
  | .dict pkvs =>
    let duration := dictGetD pkvs "duration" (.str "moment")
    let reason := dictGetD pkvs "reason" (.str "to gather thoughts")
    let memory_entry := "Waited for a " ++ pyStr duration ++ " " ++ pyStr reason
    (.ok { result := .success,
           message := actor.name ++ " waits for a " ++ pyStr duration ++ " " ++ pyStr reason,
           state_changes := [] },
     addMemory actor memory_entry)
  | _ => (.error (.attributeError "object has no attribute get"), actor)

/-- `_handle_bless` (placeholder handler). -/
def handle_bless : Handler := fun params actor =>
  match params with
  | .dict pkvs =>
    let target := dictGetD pkvs "target" (.str "general")
    (.ok { result := .success,
           message := actor.name ++ " offers a blessing to " ++ pyStr target }, actor)
  | _ => (.error (.attributeError "object has no attribute get"), actor)

/-- `_handle_contemplate` (placeholder handler). -/
def handle_contemplate : Handler := fun params actor =>
  match params with
  | .dict pkvs =>
    let subject := dictGetD pkvs "subject" (.str "divine mysteries")
    (.ok { result := .success,
           message := actor.name ++ " contemplates " ++ pyStr subject }, actor)
  | _ => (.error (.attributeError "object has no attribute get"), actor)

/-- `_handle_whisper` (placeholder handler). -/
def handle_whisper : Handler := fun params actor =>
  match params with
  | .dict pkvs =>
    let message := dictGetD pkvs "message" (.str "...")
    (.ok { result := .success,
           message := actor.name ++ " whispers: \x27" ++ pyStr message ++ "\x27" }, actor)
  | _ => (.error (.attributeError "object has no attribute get"), actor)

/-- `_handle_shout` (placeholder handler). -/
def handle_shout : Handler := fun params actor =>
  match params with
  | .dict pkvs =>
    let message := dictGetD pkvs "message" (.str "...")
    (.ok { result := .success,
           message := actor.name ++ " shouts: \x27" ++ pyStr message ++ "\x27" }, actor)
  | _ => (.error (.attributeError "object has no attribute get"), actor)

/-- `_handle_write` (placeholder handler). -/
def handle_write : Handler := fun params actor =>
  match params with
  | .dict pkvs =>
    let content := dictGetD pkvs "content" (.str "notes")
    (.ok { result := .success,
           message := actor.name ++ " writes: " ++ pyStr content }, actor)
  | _ => (.error (.attributeError "object has no attribute get"), actor)

/-- `_handle_listen_carefully` (placeholder handler; reads no parameters). -/
def handle_listen_carefully : Handler := fun _params actor =>
  (.ok { result := .success, message := actor.name ++ " listens intently" }, actor)

/-- `_handle_examine` (placeholder handler). -/
def handle_examine : Handler := fun params actor =>
  match params with
  | .dict pkvs =>
    let target := dictGetD pkvs "target" (.str "unknown")
    (.ok { result := .success,
           message := actor.name ++ " examines " ++ pyStr target }, actor)
  | _ => (.error (.attributeError "object has no attribute get"), actor)

/-- `_handle_search` (placeholder handler). -/
def handle_search : Handler := fun params actor =>
  match params with
  | .dict pkvs =>
    let target := dictGetD pkvs "target" (.str "something")
    (.ok { result := .success,
           message := actor.name ++ " searches for " ++ pyStr target }, actor)
  | _ => (.error (.attributeError "object has no attribute get"), actor)

/-- `_handle_move_to` (placeholder handler). -/
def handle_move_to : Handler := fun params actor =>
  match params with
  | .dict pkvs =>
    let location := dictGetD pkvs "location" (.str "unknown")
    (.ok { result := .success,
           message := actor.name ++ " moves to " ++ pyStr location }, actor)
  | _ => (.error (.attributeError "object has no attribute get"), actor)

/-- `_handle_stand` (reads no parameters). -/
def handle_stand : Handler := fun _params actor =>
  (.ok { result := .success, message := actor.name ++ " stands up",
         state_changes := [("posture", .str "standing")] }, actor)

/-- `_handle_sit` (reads no parameters). -/
def handle_sit : Handler := fun _params actor =>
  (.ok { result := .success, message := actor.name ++ " sits down",
         state_changes := [("posture", .str "sitting")] }, actor)

/-- `_handle_kneel` (reads no parameters). -/
def handle_kneel : Handler := fun _params actor =>
  (.ok { result := .success, message := actor.name ++ " kneels",
         state_changes := [("posture", .str "kneeling")] }, actor)

/-- `_handle_lie_down` (reads no parameters). -/
def handle_lie_down : Handler := fun _params actor =>
  (.ok { result := .success, message := actor.name ++ " lies down",
         state_changes := [("posture", .str "lying")] }, actor)

/-- `_handle_use_item` (placeholder handler). -/
def handle_use_item : Handler := fun params actor =>
  match params with
  | .dict pkvs =>
    let target := dictGetD pkvs "target" (.str "unknown item")
    (.ok { result := .success,
           message := actor.name ++ " uses " ++ pyStr target }, actor)
  | _ => (.error (.attributeError "object has no attribute get"), actor)

/-- `_handle_take` (placeholder handler). -/
def handle_take : Handler := fun params actor =>
  match params with
  | .dict pkvs =>
    let target := dictGetD pkvs "target" (.str "unknown item")
    (.ok { result := .success,
           message := actor.name ++ " takes " ++ pyStr target }, actor)
  | _ => (.error (.attributeError "object has no attribute get"), actor)

/-- `_handle_give` (placeholder handler). -/
def handle_give : Handler := fun params actor =>
  match params with
  | .dict pkvs =>
    let target := dictGetD pkvs "target" (.str "someone")
    let item := dictGetD pkvs "item" (.str "something")
    (.ok { result := .success,
           message := actor.name ++ " gives " ++ pyStr item ++ " to " ++ pyStr target }, actor)
  | _ => (.error (.attributeError "object has no attribute get"), actor)

/-- `_handle_touch` (placeholder handler). -/
def handle_touch : Handler := fun params actor =>
  match params with
  | .dict pkvs =>
    let target := dictGetD pkvs "target" (.str "unknown")
    (.ok { result := .success,
           message := actor.name ++ " touches " ++ pyStr target }, actor)
  | _ => (.error (.attributeError "object has no attribute get"), actor)

/-- `_handle_decide` (placeholder handler). -/
def handle_decide : Handler := fun params actor =>
  match params with
  | .dict pkvs =>
    let decision := dictGetD pkvs "decision" (.str "course of action")
    (.ok { result := .success,
           message := actor.name ++ " decides on " ++ pyStr decision }, actor)
  | _ => (.error (.attributeError "object has no attribute get"), actor)

/-- `_handle_plan` (placeholder handler). -/
def handle_plan : Handler := fun params actor =>
  match params with
  | .dict pkvs =>
    let plan := dictGetD pkvs "plan" (.str "future actions")
    (.ok { result := .success,
           message := actor.name ++ " plans " ++ pyStr plan }, actor)
  | _ => (.error (.attributeError "object has no attribute get"), actor)

/-- `_handle_remember` (placeholder handler). -/
def handle_remember : Handler := fun params actor =>
  match params with
  | .dict pkvs =>
    let memory := dictGetD pkvs "memory" (.str "past events")
    (.ok { result := .success,
           message := actor.name ++ " remembers " ++ pyStr memory }, actor)
  | _ => (.error (.attributeError "object has no attribute get"), actor)

/-- `_handle_rest` (reads no parameters). -/
def handle_rest : Handler := fun _params actor =>
  (.ok { result := .success, message := actor.name ++ " rests",
         state_changes := [("energy", .str "restored")] }, actor)

/-- The handler registry: a name-to-callable dict (`self._action_handlers`). -/
abbrev HandlerMap := List (String × Handler)

/-- `_register_default_actions`: the default registry, in registration order.
All six `show_emotion_*` names share the `_handle_show_emotion` callable. -/
def defaultHandlers : HandlerMap :=
  [("pray", handle_pray),
   ("compose_prayer", handle_compose_prayer),
   ("record_vision", handle_record_vision),
   ("bless", handle_bless),
   ("contemplate", handle_contemplate),
   ("speak", handle_speak),
   ("whisper", handle_whisper),
   ("shout", handle_shout),
   ("write", handle_write),
   ("observe_surroundings", handle_observe_surroundings),
   ("listen_carefully", handle_listen_carefully),
   ("examine", handle_examine),
   ("search", handle_search),
   ("show_emotion_fear", handle_show_emotion),
   ("show_emotion_awe", handle_show_emotion),
   ("show_emotion_determination", handle_show_emotion),
   ("show_emotion_sadness", handle_show_emotion),
   ("show_emotion_joy", handle_show_emotion),
   ("show_emotion_anger", handle_show_emotion),
   ("move_to", handle_move_to),
   ("stand", handle_stand),
   ("sit", handle_sit),
   ("kneel", handle_kneel),
   ("lie_down", handle_lie_down),
   ("use_item", handle_use_item),
   ("take", handle_take),
   ("give", handle_give),
   ("touch", handle_touch),
   ("think", handle_think),
   ("decide", handle_decide),
   ("plan", handle_plan),
   ("remember", handle_remember),
   ("wait", handle_wait),
   ("rest", handle_rest)]

/-- `register_action`: `self._action_handlers[action_name] = handler`. -/
def register_action (mgr : HandlerMap) (action_name : String) (handler : Handler) :
    HandlerMap :=
  if mgr.any (fun p => p.1 == action_name) then
    mgr.map (fun p => if p.1 == action_name then (action_name, handler) else p)
  else
    mgr ++ [(action_name, handler)]

/-- One `if action_name in [...] and key not in parameters: return False` step of
`validate_action`: `.ok false` when the check applies and the key is missing,
`.ok true` when the check passes or does not apply. -/
def requiredParamCheck (action_name : String) (names : List String) (key : String)
    (parameters : PyVal) : Except PyErr Bool :=
  if action_name ∈ names then
    match pyContainsE parameters key with
    | .error e => .error e
    | .ok present => .ok present
  else .ok true

/-- `validate_action` (lines 119-153): unknown names are rejected, then the
three parameter checks run in order.  The `.lower()` call on a non-string
action name raises, as in the source. -/
def validate_action (mgr : HandlerMap) (action : List (String × PyVal)) :
    Except PyErr Bool :=
  match pyLowerE (dictGetD action "action_name" (.str "")) with
  | .error e => .error e
  | .ok action_name =>
    if (mgr.lookup action_name).isNone then .ok false
    else
      let parameters := dictGetD action "parameters" (.dict [])
      match requiredParamCheck action_name ["move_to"] "location" parameters with
      | .error e => .error e
      | .ok false => .ok false
      | .ok true =>
        match requiredParamCheck action_name ["speak", "whisper", "shout"] "message" parameters with
        | .error e => .error e
        | .ok false => .ok false
        | .ok true =>
          match requiredParamCheck action_name ["examine", "use_item", "take", "give", "touch"] "target" parameters with
          | .error e => .error e
          | .ok false => .ok false
          | .ok true => .ok true

/-- The INVALID outcome built by `execute_action` when validation fails. -/
def invalidOutcome (action_name : String) : ActionOutcome :=
  { result := .invalid,
    message := "Action \x27" ++ action_name ++ "\x27 is invalid or missing required parameters" }

/-- The FAILED outcome built by `execute_action` when a handler raises. -/
def failedOutcome (e : PyErr) : ActionOutcome :=
  { result := .failed, message := "Action failed due to error: " ++ e.msg }

/-- `execute_action` (lines 155-187).  The `action_name.lower()` normalisation
and the `validate_action` call sit outside the `try` block, so they can raise;
the handler dispatch sits inside it, so handler exceptions become FAILED
outcomes.  The lookup `self._action_handlers[action_name]` is inside the `try`
as well, so a missing key would surface as a caught KeyError (unreachable after
successful validation). -/
def execute_action (mgr : HandlerMap) (action : List (String × PyVal))
    (actor : ActorData) : Except PyErr ActionOutcome × ActorData :=
  match pyLowerE (dictGetD action "action_name" (.str "")) with
  | .error e => (.error e, actor)
  | .ok action_name =>
    let parameters := dictGetD action "parameters" (.dict [])
    match validate_action mgr action with
    | .error e => (.error e, actor)
    | .ok false => (.ok (invalidOutcome action_name), actor)
    | .ok true =>
      match mgr.lookup action_name with
      | Option.none => (.ok (failedOutcome (.keyError action_name)), actor)
      | some handler =>
        match handler parameters actor with
        | (.error e, actor1) => (.ok (failedOutcome e), actor1)
        | (.ok outcome, actor1) => (.ok outcome, actor1)

/-! ## Outcome applier (`src/engine/actors/basic_runtime_agno_v1.py`,
`agno_action_tool`, lines 219-232) -/

/-- The inner loop `for emotion, new_value in value.items(): ...emotions[emotion]
= new_value`; assignment goes through the pydantic `Dict[str, float]` coercion,
so a non-float-coercible value raises (with the entries before it kept). -/
def applyEmotionChanges (ekvs : List (String × PyVal))
    (em : List (String × ℚ)) : Except PyErr Unit × List (String × ℚ) :=
  match ekvs with
  | [] => (.ok (), em)
  | (emotion, new_value) :: rest =>
    match asFloat new_value with
    | some q => applyEmotionChanges rest (dictSetQ em emotion q)
    | Option.none => (.error (.valueError "validation error for emotions"), em)

/-- The outcome-applier loop `for key, value in outcome.state_changes.items()`:
an `emotion_changes` entry is merged into the emotions mapping, every other key
is written into the actor state dict.  A non-dict `emotion_changes` value makes
`value.items()` raise, with earlier keys already applied. -/
def applyStateChanges (changes : List (String × PyVal)) (actor : ActorData) :
    Except PyErr Unit × ActorData :=
  match changes with
  | [] => (.ok (), actor)
  | (key, value) :: rest =>
    if key == "emotion_changes" then
      match value with
      | .dict ekvs =>
        match applyEmotionChanges ekvs actor.cognitive_core.emotions with
        | (.error e, em) =>
          (.error e,
           { actor with cognitive_core := { actor.cognitive_core with emotions := em } })
        | (.ok _, em) =>
          applyStateChanges rest
            { actor with cognitive_core := { actor.cognitive_core with emotions := em } }
      | _ => (.error (.attributeError "object has no attribute items"), actor)
    else
      applyStateChanges rest { actor with state := dictSet actor.state key value }

/-! ## Prompt formulator (`src/engine/actors/basic_runtime_agno_v1.py`,
`ScrAILLMModelWrapper._generate_prompt_for_llm`, lines 73-115) -/

/-- An Agno chat message as read by the prompt formulator. -/
structure AgnoMsg : Type where
  role : String
  content : PyVal := .none
  tool_calls : Option (List PyVal) := Option.none
  name : Option String := Option.none

/-- The `content_str` accumulation over the parts of a list-valued message
content: text parts are concatenated with a trailing space; a non-string
`"text"` value makes the `+` concatenation raise. -/
def partsContent (parts : List PyVal) (acc : String) : Except PyErr String :=
  match parts with
  | [] => .ok acc
  | part :: rest =>
    match part with
    | .dict kvs =>
      if ((kvs.lookup "type").getD .none).eqStr "text" then
        match (kvs.lookup "text").getD (.str "") with
        | .str t => partsContent rest (acc ++ t ++ " ")
        | _ => .error (.typeError "can only concatenate str")
      else partsContent rest acc
    | _ => partsContent rest acc

/-- `content_str` for one message: the string content itself, the joined text
parts of a list content, and the empty string otherwise. -/
def contentStr (c : PyVal) : Except PyErr String :=
  match c with
  | .str s => .ok s
  | .list parts => partsContent parts ""
  | _ => .ok ""

/-- The entries contributed by the tool calls of one message:
`"{role} called tool {name} with args {arguments}"` per call; `tc.get` /
`func_details.get` raise on non-dict values. -/
def toolCallEntries (role : String) (tcs : List PyVal) : Except PyErr (List String) :=
  match tcs with
  | [] => .ok []
  | tc :: rest =>
    match tc with
    | .dict tckvs =>
      match (tckvs.lookup "function").getD (.dict []) with
      | .dict fkvs =>
        let nm := pyStr ((fkvs.lookup "name").getD (.str "unknown"))
        let args := pyStr ((fkvs.lookup "arguments").getD (.str "\x7b\x7d"))
        match toolCallEntries role rest with
        | .error e => .error e
        | .ok more => .ok ((role ++ " called tool " ++ nm ++ " with args " ++ args) :: more)
      | _ => .error (.attributeError "object has no attribute get")
    | _ => .error (.attributeError "object has no attribute get")

/-- Rendering of `m.name` inside an f-string (`None` when absent). -/
def optStr : Option String → String
  | some s => s
  | Option.none => "None"

/-- The recent-history entries contributed by one message: tool-call lines when
the message carries a non-empty tool-call list, otherwise a tool response line
or a plain `role: content` line for non-empty content. -/
def msgEntries (m : AgnoMsg) : Except PyErr (List String) :=
  match contentStr m.content with
  | .error e => .error e
  | .ok content_str =>
    match m.tool_calls with
    | some (tc :: tcs) => toolCallEntries m.role (tc :: tcs)
    | _ =>
      if m.role == "tool" && content_str != "" then
        .ok ["tool " ++ optStr m.name ++ " responded: " ++ content_str.trim]
      else if content_str != "" then
        .ok [m.role ++ ": " ++ content_str.trim]
      else .ok []

/-- The concatenated recent-history entries of a message list. -/
def recentEntries (ms : List AgnoMsg) : Except PyErr (List String) :=
  match ms with
  | [] => .ok []
  | m :: rest =>
    match msgEntries m with
    | .error e => .error e
    | .ok entries =>
      match recentEntries rest with
      | .error e => .error e
      | .ok more => .ok (entries ++ more)

/-- The current-state label:
`actor_data.state.get('actor_state', actor_data.state.get('status', 'neutral'))`. -/
def currentStateLabel (state : List (String × PyVal)) : PyVal :=
  (state.lookup "actor_state").getD ((state.lookup "status").getD (.str "neutral"))

/-- Rendering of the optional actor description inside an f-string. -/
def descStr : Option String → String
  | some s => s
  | Option.none => "None"

/-- `_generate_prompt_for_llm`: builds the decision prompt from the actor
snapshot (name, description, state label, goals, emotions) and the last five
messages.  Returns the prompt string, or the exception a malformed message
payload raises. -/
def generate_prompt (actor : ActorData) (messages : List AgnoMsg) :
    Except PyErr String :=
  let goals_str :=
    String.intercalate "; " (actor.cognitive_core.current_goals.map (fun g => g.description))
  match recentEntries (messages.drop (messages.length - 5)) with
  | .error e => .error e
  | .ok entries =>
    let memory_str := String.intercalate "; " (entries.filter (fun s => !(s == "")))
    let emotions_str :=
      String.intercalate ", "
        (actor.cognitive_core.emotions.map (fun p => p.1 ++ ": " ++ ratStr p.2))
    .ok ("You are " ++ actor.name ++ ". Your description: " ++ descStr actor.description ++ ".\n"
      ++ "Your current role/state: " ++ pyStr (currentStateLabel actor.state) ++ ".\n"
      ++ "Your current goals are: [" ++ goals_str ++ "].\n"
      ++ "Your recent conversation history (treat as short-term memory): [" ++ memory_str ++ "].\n"
      ++ "Your current emotions are: [" ++ emotions_str ++ "].\n\n"
      ++ "Based on this and the latest user message, what is your immediate, single next action? "
      ++ "The system will provide you with a list of available tools (actions). "
      ++ "If you decide to use a tool, respond ONLY with a JSON object in the format: "
      ++ "\x7b\"action_name\": \"your_chosen_action_tool_name\", \"parameters\": \x7b\"param1\": \"value1\", ...\x7d\x7d.\n"
      ++ "If you decide to respond directly without using a tool, provide your textual response in a JSON object like: "
      ++ "\x7b\"response_text\": \"Your natural language response here.\"\x7d.\n"
      ++ "Choose one tool or provide a direct response. Your JSON response:")

/-! ## Spec-modelled runtime core

The runtime actor that owns the bounded short-term memory buffer and the
decision fallback policy (`RuntimeActor` / `RuntimeCognitiveCore`, imported by
`src/protopope.py`, `src/demo_real_vs_mock.py` and
`src/tests/protopope/protopope.py`) is not present under `src/`; only its
callers and tests are.  The definitions below are modelled from the spec and
are marked as such. -/

/-- Modelled from the spec: the fixed Memory Buffer capacity (spec §3/§4.1,
observed cap 10).  The implementation holding this constant is the missing
`RuntimeCognitiveCore`. -/
def memoryCapacity : ℕ := 10

/-- Modelled from the spec: the Memory Buffer `record(text)` operation (spec
§4.1): append one entry; if the buffer length exceeds the capacity, truncate to
the most recent `memoryCapacity` entries (oldest discarded).  The implementing
code is the missing `RuntimeCognitiveCore`. -/
def record (buffer : List String) (text : String) : List String :=
  let b := buffer ++ [text]
  if b.length > memoryCapacity then b.drop (b.length - memoryCapacity) else b

/-- The buffer obtained by recording a sequence of entries into an initially
empty Memory Buffer. -/
def recordAll (entries : List String) : List String :=
  entries.foldl record []

/-- Modelled from the spec: what the Decision Backend adapter hands the core
for one turn (spec §4.3): either a raised fault (network/provider failure, or
malformed output with no extractable embedded object — both surface as raised
`ValueError`s in `OpenRouterLLM.complete_json`), or a parsed structured
response. -/
inductive BackendResult : Type where
  | failure (reason : String)
  | response (content : List (String × PyVal))

/-- Modelled from the spec: a decision produced by the core (spec §3, Decision
Backend Response): an action selection or a direct textual reply. -/
inductive Decision : Type where
  | action (action_name : String) (parameters : List (String × PyVal))
  | reply (text : String)

/-- Modelled from the spec: the failure reason the core records for a failing
backend interaction (spec §4.3). -/
def backendFailureReason : BackendResult → String
  | .failure reason => reason
  | .response _ => "LLM response missing required key action_name"

/-- Modelled from the spec: the core's decision step (spec §4.3, implemented by
the missing `RuntimeCognitiveCore.decide`): a raised backend fault is replaced
by the synthetic `error_llm_unavailable` decision; a structured response with
an `action_name` key becomes an action request; a `response_text` response
becomes a direct reply; anything else is replaced by the synthetic
`error_invalid_response` decision.  Both synthetic decisions carry the failure
reason in their parameters. -/
def decide_step : BackendResult → Decision
  | .failure reason => .action "error_llm_unavailable" [("error_message", .str reason)]
  | .response content =>
    match content.lookup "action_name" with
    | some a =>
      .action (pyStr a)
        (match content.lookup "parameters" with
         | some (.dict p) => p
         | _ => [])
    | Option.none =>
      match content.lookup "response_text" with
      | some t => .reply (pyStr t)
      | Option.none =>
        .action "error_invalid_response"
          [("reason", .str "LLM response missing required key action_name")]

/-- A backend interaction that failed, in the spec's taxonomy (§4.3): the
adapter raised, or the structured response is neither action-shaped (no
`action_name`) nor a direct reply (no `response_text`). -/
def backendFailed : BackendResult → Prop
  | .failure _ => True
  | .response content =>
    content.lookup "action_name" = Option.none ∧
    content.lookup "response_text" = Option.none

/-- Modelled from the spec: the loop-visible state owned by one actor's core. -/
structure LoopState : Type where
  memory : List String := []

/-- Modelled from the spec: one turn of the Loop Controller (spec §4.6,
PERCEIVING then DECIDING): the perception is recorded into the Memory Buffer
and the backend interaction is turned into exactly one decision, substituting
the synthetic fallback on failure. -/
def run_turn (perception : String) (backend : BackendResult) (st : LoopState) :
    Decision × LoopState :=
  ({ st with memory := record st.memory perception } |> fun st1 =>
    (decide_step backend, st1))

/-- Modelled from the spec: repeated turns of the Loop Controller (spec §4.6);
the loop re-enters PERCEIVING after every turn, backend failures included. -/
def run_loop (inputs : List (String × BackendResult)) (st : LoopState) :
    List Decision × LoopState :=
  match inputs with
  | [] => ([], st)
  | (perception, backend) :: rest =>
    let (d, st1) := run_turn perception backend st
    let (ds, st2) := run_loop rest st1
    (d :: ds, st2)

/-! ## Helper lemmas -/

theorem isInfixB_append_self (a b : List Char) : isInfixB b (a ++ b) = true := by
  induction a with
  | nil =>
    cases b with
    | nil => rfl
    | cons c r =>
      simp only [List.nil_append, isInfixB]
      have hp : List.isPrefixOf (c :: r) (c :: r) = true := by
        rw [List.isPrefixOf_iff_prefix]
      simp [hp]
  | cons c a ih =>
    simp only [List.cons_append, isInfixB, List.append_eq, ih, Bool.or_true]

theorem strContainsB_append_right (a b : String) : strContainsB (a ++ b) b = true := by
  rw [strContainsB, String.data_append]
  exact isInfixB_append_self a.data b.data

theorem lookup_eq_some_mem {α : Type} (l : List (String × α)) (k : String)
    (v : α) (h : l.lookup k = some v) : (k, v) ∈ l := by
  induction l with
  | nil => simp [List.lookup] at h
  | cons p rest ih =>
    obtain ⟨a, b⟩ := p
    rw [List.lookup] at h
    cases hbeq : (k == a) with
    | true =>
      rw [hbeq] at h
      simp only at h
      have hkey : k = a := eq_of_beq hbeq
      cases h
      simp [hkey]
    | false =>
      rw [hbeq] at h
      simp only at h
      exact List.mem_cons_of_mem _ (ih h)

theorem lookup_cons_ite {α : Type} (a k : String) (b : α) (es : List (String × α)) :
    ((k, b) :: es).lookup a = if a == k then some b else es.lookup a := by
  rw [List.lookup_cons]
  cases h : a == k <;> simp

theorem lookup_map_replace_ne {α : Type} (d : List (String × α)) (k k' : String)
    (v : α) (h : ¬ k' = k) :
    (d.map (fun p => if p.1 == k then (k, v) else p)).lookup k' = d.lookup k' := by
  have hnk : (k' == k) = false := by
    rw [beq_eq_false_iff_ne]
    exact h
  induction d with
  | nil => rfl
  | cons p rest ih =>
    obtain ⟨a, b⟩ := p
    simp only [List.map_cons]
    by_cases ha : (a == k) = true
    · have hak : a = k := eq_of_beq ha
      subst hak
      rw [if_pos ha, lookup_cons_ite, lookup_cons_ite, if_neg (by simp [hnk]),
        if_neg (by simp [hnk])]
      exact ih
    · rw [if_neg ha, lookup_cons_ite, lookup_cons_ite]
      by_cases hk' : (k' == a) = true
      · rw [if_pos hk', if_pos hk']
      · rw [if_neg hk', if_neg hk']
        exact ih

theorem lookup_map_replace_self {α : Type} (d : List (String × α)) (k : String)
    (v : α) (hany : d.any (fun p => p.1 == k) = true) :
    (d.map (fun p => if p.1 == k then (k, v) else p)).lookup k = some v := by
  induction d with
  | nil => simp at hany
  | cons p rest ih =>
    obtain ⟨a, b⟩ := p
    simp only [List.map_cons]
    by_cases ha : (a == k) = true
    · rw [if_pos ha, lookup_cons_ite, if_pos (by simp)]
    · have hrest : rest.any (fun p => p.1 == k) = true := by
        simp only [List.any_cons, Bool.or_eq_true] at hany
        rcases hany with h1 | h2
        · exact absurd h1 ha
        · exact h2
      have hka : (k == a) = false := by
        simp only [Bool.not_eq_true] at ha
        rw [beq_eq_false_iff_ne]
        intro hh
        rw [beq_eq_false_iff_ne] at ha
        exact ha hh.symm
      rw [if_neg ha, lookup_cons_ite, if_neg (by simp [hka])]
      exact ih hrest

theorem lookup_append_assoc {α : Type} (d e : List (String × α)) (k' : String) :
    (d ++ e).lookup k' = ((d.lookup k').orElse (fun _ => e.lookup k')) := by
  induction d with
  | nil => simp [List.lookup]
  | cons p rest ih =>
    obtain ⟨a, b⟩ := p
    rw [List.cons_append, lookup_cons_ite, lookup_cons_ite]
    by_cases h : (k' == a) = true
    · rw [if_pos h, if_pos h]
      rfl
    · rw [if_neg h, if_neg h]
      exact ih

theorem assoc_lookup_set {α : Type} (d : List (String × α)) (k k' : String) (v : α) :
    ((if d.any (fun p => p.1 == k) then
        d.map (fun p => if p.1 == k then (k, v) else p)
      else d ++ [(k, v)]).lookup k') =
      if k' = k then some v else d.lookup k' := by
  by_cases hany : d.any (fun p => p.1 == k) = true
  · rw [if_pos hany]
    by_cases hk : k' = k
    · subst hk
      rw [if_pos rfl]
      exact lookup_map_replace_self d k' v hany
    · rw [if_neg hk]
      exact lookup_map_replace_ne d k k' v hk
  · rw [if_neg hany, lookup_append_assoc]
    by_cases hk : k' = k
    · subst hk
      have hnone : d.lookup k' = Option.none := by
        cases hl : d.lookup k' with
        | none => rfl
        | some w =>
          have hm := lookup_eq_some_mem d k' w hl
          exact absurd (List.any_eq_true.mpr ⟨(k', w), hm, by simp⟩) hany
      rw [hnone, if_pos rfl]
      simp [List.lookup]
    · cases hl : d.lookup k' with
      | none =>
        have hbk : (k' == k) = false := by
          rw [beq_eq_false_iff_ne]
          exact hk
        rw [if_neg hk]
        simp [List.lookup, hbk]
      | some w =>
        rw [if_neg hk]
        rfl

theorem lookup_dictSet (d : List (String × PyVal)) (k k' : String) (v : PyVal) :
    (dictSet d k v).lookup k' = if k' = k then some v else d.lookup k' :=
  assoc_lookup_set d k k' v

theorem lookup_dictSetQ (d : List (String × ℚ)) (k k' : String) (v : ℚ) :
    (dictSetQ d k v).lookup k' = if k' = k then some v else d.lookup k' :=
  assoc_lookup_set d k k' v

theorem recordAll_append (l : List String) (t : String) :
    recordAll (l ++ [t]) = record (recordAll l) t := by
  simp [recordAll, List.foldl_append]

theorem recordAll_suffix (l : List String) :
    recordAll l = l.drop (l.length - memoryCapacity) := by
  induction l using List.reverseRecOn with
  | nil => rfl
  | append_singleton l t ih =>
    rw [recordAll_append, ih]
    simp only [record, memoryCapacity, List.length_append, List.length_drop,
      List.length_singleton]
    by_cases hle : l.length ≤ 9
    · have h0 : l.length - 10 = 0 := by omega
      rw [h0, List.drop_zero, if_neg (by omega)]
      have h1 : l.length + 1 - 10 = 0 := by omega
      rw [h1, List.drop_zero]
    · have hcond : l.length - (l.length - 10) + 1 > 10 := by omega
      rw [if_pos hcond]
      have h2 : l.length - (l.length - 10) + 1 - 10 = 1 := by omega
      rw [h2]
      have h3 : (l.drop (l.length - 10) ++ [t]).drop 1 =
          (l.drop (l.length - 10)).drop 1 ++ [t] :=
        List.drop_append_of_le_length (by rw [List.length_drop]; omega)
      rw [h3, List.drop_drop]
      have h4 : l.length - 10 + 1 = l.length - 9 := by omega
      rw [h4]
      have h5 : l.length + 1 - 10 = l.length - 9 := by omega
      rw [h5]
      exact (List.drop_append_of_le_length (by omega)).symm

/-- C1: for every sequence of recorded perception/narration entries, the
short-term memory buffer never exceeds the fixed capacity 10 after any record
operation (every prefix of the sequence), and after recording the whole
sequence it holds exactly the most recent `min(N, 10)` entries in original
insertion order (oldest evicted first): the buffer is precisely the length-10
suffix of the recorded sequence. -/
theorem c1_memory_buffer_bounded :
    (∀ (entries : List String) (n : ℕ),
        (recordAll (entries.take n)).length ≤ memoryCapacity) ∧
    (∀ entries : List String,
        recordAll entries = entries.drop (entries.length - memoryCapacity) ∧
        (recordAll entries).length = min entries.length memoryCapacity) := by
  constructor
  · intro entries n
    rw [recordAll_suffix, List.length_drop]
    simp only [memoryCapacity]
    omega
  · intro entries
    refine ⟨recordAll_suffix entries, ?_⟩
    rw [recordAll_suffix, List.length_drop]
    simp only [memoryCapacity]
    omega

/-- C2: every decision-backend failure (raised fault, or a structured response
that is neither action-shaped nor a direct reply) is substituted by a synthetic
fallback decision named `error_llm_unavailable` or `error_invalid_response`
whose parameters carry the failure reason, and the loop processes every
subsequent turn (one decision per input, failures included) instead of
terminating. -/
theorem c2_decision_fallback :
    (∀ backend : BackendResult, backendFailed backend →
        ∃ ps : List (String × PyVal),
          (decide_step backend = .action "error_llm_unavailable" ps ∨
           decide_step backend = .action "error_invalid_response" ps) ∧
          ∃ k, ps.lookup k = some (.str (backendFailureReason backend))) ∧
    (∀ (inputs : List (String × BackendResult)) (st : LoopState),
        (run_loop inputs st).1.length = inputs.length) := by
  constructor
  · intro backend h
    cases backend with
    | failure reason =>
      refine ⟨[("error_message", .str reason)], Or.inl rfl, "error_message", ?_⟩
      simp [List.lookup, backendFailureReason]
    | response content =>
      obtain ⟨h1, h2⟩ := h
      refine ⟨[("reason", .str "LLM response missing required key action_name")],
        ?_, "reason", ?_⟩
      · right
        simp [decide_step, h1, h2]
      · simp [List.lookup, backendFailureReason]
  · intro inputs
    induction inputs with
    | nil => intro st; rfl
    | cons i rest ih =>
      intro st
      obtain ⟨p, b⟩ := i
      simp [run_loop, run_turn, ih]

/-- Witness for C2: a concrete network failure is substituted by the
`error_llm_unavailable` fallback carrying the reason, and a concrete two-turn
loop with a failing first turn still yields two decisions. -/
theorem c2_decision_fallback_witness :
    (∃ ps : List (String × PyVal),
        (decide_step (.failure "Network error when contacting OpenRouter API") =
           .action "error_llm_unavailable" ps ∨
         decide_step (.failure "Network error when contacting OpenRouter API") =
           .action "error_invalid_response" ps) ∧
        ∃ k, ps.lookup k = some (.str (backendFailureReason
          (.failure "Network error when contacting OpenRouter API")))) ∧
    (run_loop
      [("a voice in the chapel", .failure "Network error when contacting OpenRouter API"),
       ("silence returns", .response [("type", .str "wait")])] {}).1.length = 2 :=
  ⟨c2_decision_fallback.1 _ trivial, c2_decision_fallback.2 _ _⟩

theorem dictGetD_parameters_dict (action : List (String × PyVal))
    (hparams : action.lookup "parameters" = Option.none ∨
               ∃ p, action.lookup "parameters" = some (.dict p)) :
    ∃ p, dictGetD action "parameters" (.dict []) = .dict p := by
  rcases hparams with h | ⟨p, h⟩
  · exact ⟨[], by simp [dictGetD, h]⟩
  · exact ⟨p, by simp [dictGetD, h]⟩

theorem pyLowerE_name_ok (action : List (String × PyVal))
    (hname : action.lookup "action_name" = Option.none ∨
             ∃ s, action.lookup "action_name" = some (.str s)) :
    ∃ an, pyLowerE (dictGetD action "action_name" (.str "")) = .ok an := by
  rcases hname with h | ⟨s, h⟩
  · exact ⟨strLower "", by simp [dictGetD, h, pyLowerE]⟩
  · exact ⟨strLower s, by simp [dictGetD, h, pyLowerE]⟩

theorem requiredParamCheck_mem (an : String) (names : List String) (key : String)
    (p : List (String × PyVal)) (h : an ∈ names) :
    requiredParamCheck an names key (.dict p) = .ok (p.lookup key).isSome := by
  unfold requiredParamCheck
  rw [if_pos h]
  rfl

theorem requiredParamCheck_not_mem (an : String) (names : List String) (key : String)
    (params : PyVal) (h : an ∉ names) :
    requiredParamCheck an names key params = .ok true := by
  unfold requiredParamCheck
  rw [if_neg h]

theorem validate_action_no_raise (mgr : HandlerMap) (action : List (String × PyVal))
    (hname : action.lookup "action_name" = Option.none ∨
             ∃ s, action.lookup "action_name" = some (.str s))
    (hparams : action.lookup "parameters" = Option.none ∨
               ∃ p, action.lookup "parameters" = some (.dict p)) :
    ∃ b, validate_action mgr action = .ok b := by
  obtain ⟨an, han⟩ := pyLowerE_name_ok action hname
  obtain ⟨p, hpd⟩ := dictGetD_parameters_dict action hparams
  unfold validate_action
  rw [han]
  by_cases hmn : (mgr.lookup an).isNone
  · exact ⟨false, by simp [hmn]⟩
  · simp only [Bool.not_eq_true] at hmn
    simp only [hmn, Bool.false_eq_true, if_false]
    rw [hpd]
    have hch : ∀ names key, ∃ b, requiredParamCheck an names key (.dict p) = .ok b := by
      intro names key
      by_cases hmem : an ∈ names
      · exact ⟨_, requiredParamCheck_mem an names key p hmem⟩
      · exact ⟨true, requiredParamCheck_not_mem an names key _ hmem⟩
    obtain ⟨b1, hb1⟩ := hch ["move_to"] "location"
    rw [hb1]
    cases b1 with
    | false => exact ⟨false, rfl⟩
    | true =>
      obtain ⟨b2, hb2⟩ := hch ["speak", "whisper", "shout"] "message"
      rw [hb2]
      cases b2 with
      | false => exact ⟨false, rfl⟩
      | true =>
        obtain ⟨b3, hb3⟩ := hch ["examine", "use_item", "take", "give", "touch"] "target"
        rw [hb3]
        cases b3 with
        | false => exact ⟨false, rfl⟩
        | true => exact ⟨true, rfl⟩

/-- C3 counterexample: for the action dictionary whose `action_name` value is
the integer `123`, `execute_action` does not return an `ActionOutcome` — the
`.lower()` call on the non-string name sits outside the `try` block and its
AttributeError propagates to the caller, refuting "never raises" for arbitrary
values of the `action_name` entry. -/
theorem c3_execute_raises_on_nonstring_name :
    execute_action defaultHandlers [("action_name", PyVal.int 123)]
        { name := "Pope Leo XIII" } =
      (Except.error (PyErr.attributeError "object has no attribute lower"),
       { name := "Pope Leo XIII" }) := rfl

/-- C3 (amended): for every action dictionary whose `action_name` entry is
absent or a string and whose `parameters` entry is absent or a dict, and for
every registry and actor, `execute_action` returns a well-formed
`ActionOutcome` and never raises an exception to its caller (handler
exceptions included — they are caught and converted). -/
theorem c3_execute_total_for_wellformed_requests
    (mgr : HandlerMap) (action : List (String × PyVal)) (actor : ActorData)
    (hname : action.lookup "action_name" = Option.none ∨
             ∃ s, action.lookup "action_name" = some (.str s))
    (hparams : action.lookup "parameters" = Option.none ∨
               ∃ p, action.lookup "parameters" = some (.dict p)) :
    ∃ (outcome : ActionOutcome) (actor1 : ActorData),
      execute_action mgr action actor = (Except.ok outcome, actor1) := by
  obtain ⟨an, han⟩ := pyLowerE_name_ok action hname
  obtain ⟨b, hb⟩ := validate_action_no_raise mgr action hname hparams
  unfold execute_action
  rw [han]
  simp only [hb]
  cases b with
  | false => exact ⟨invalidOutcome an, actor, rfl⟩
  | true =>
    cases hml : mgr.lookup an with
    | none => exact ⟨failedOutcome (.keyError an), actor, rfl⟩
    | some handler =>
      rcases hr : handler (dictGetD action "parameters" (.dict [])) actor with ⟨r, actor1⟩
      cases r with
      | error e => exact ⟨failedOutcome e, actor1, by simp [hr]⟩
      | ok outcome => exact ⟨outcome, actor1, by simp [hr]⟩

/-- Witness for the amended C3 at a concrete request. -/
theorem c3_execute_total_witness :
    ∃ (outcome : ActionOutcome) (actor1 : ActorData),
      execute_action defaultHandlers
        [("action_name", PyVal.str "wait"), ("parameters", PyVal.dict [])]
        { name := "Pope Leo XIII" } = (Except.ok outcome, actor1) :=
  c3_execute_total_for_wellformed_requests defaultHandlers _ _
    (Or.inr ⟨"wait", rfl⟩) (Or.inr ⟨[], rfl⟩)

/-- C4: an action whose (lower-cased) name is not registered, and a registered
action missing one of its declared required parameters (`location` for
`move_to`; `message` for `speak`/`whisper`/`shout`; `target` for
`examine`/`use_item`/`take`/`give`/`touch`), fails validation and yields an
INVALID outcome from `execute_action` without invoking any handler (the result
holds for every registry containing any handlers at all) and without any side
effect on the actor state (the actor is returned unchanged). -/
theorem c4_unknown_or_missing_param_invalid :
    (∀ (mgr : HandlerMap) (action : List (String × PyVal)) (actor : ActorData)
        (s : String),
        dictGetD action "action_name" (.str "") = .str s →
        mgr.lookup (strLower s) = Option.none →
        validate_action mgr action = .ok false ∧
        execute_action mgr action actor = (.ok (invalidOutcome (strLower s)), actor) ∧
        (invalidOutcome (strLower s)).result = .invalid ∧
        (invalidOutcome (strLower s)).state_changes = []) ∧
    (∀ (mgr : HandlerMap) (action : List (String × PyVal)) (actor : ActorData)
        (s req : String) (p : List (String × PyVal)),
        dictGetD action "action_name" (.str "") = .str s →
        ((strLower s = "move_to" ∧ req = "location") ∨
         (strLower s ∈ ["speak", "whisper", "shout"] ∧ req = "message") ∨
         (strLower s ∈ ["examine", "use_item", "take", "give", "touch"] ∧ req = "target")) →
        (mgr.lookup (strLower s)).isSome →
        dictGetD action "parameters" (.dict []) = .dict p →
        p.lookup req = Option.none →
        validate_action mgr action = .ok false ∧
        execute_action mgr action actor = (.ok (invalidOutcome (strLower s)), actor) ∧
        (invalidOutcome (strLower s)).result = .invalid ∧
        (invalidOutcome (strLower s)).state_changes = []) := by
  constructor
  · intro mgr action actor s hs hml
    have key : validate_action mgr action = .ok false := by
      unfold validate_action
      rw [hs]
      simp [pyLowerE, hml]
    refine ⟨key, ?_, rfl, rfl⟩
    unfold execute_action
    rw [hs]
    simp [pyLowerE, key]
  · intro mgr action actor s req p hs hgrp hsome hpd hmiss
    have key : validate_action mgr action = .ok false := by
      unfold validate_action
      rw [hs]
      simp only [pyLowerE]
      cases hml : mgr.lookup (strLower s) with
      | none => rw [hml] at hsome; simp at hsome
      | some hdl =>
        simp only [hml, Option.isNone_some, Bool.false_eq_true, if_false]
        rw [hpd]
        rcases hgrp with ⟨ht, rfl⟩ | ⟨ht, rfl⟩ | ⟨ht, rfl⟩
        · rw [ht, requiredParamCheck_mem _ _ _ _ (by decide), hmiss]
          rfl
        · simp only [List.mem_cons, List.mem_singleton, List.not_mem_nil, or_false] at ht
          rcases ht with ht | ht | ht <;>
            rw [ht, requiredParamCheck_not_mem _ ["move_to"] _ _ (by decide),
              requiredParamCheck_mem _ _ _ _ (by decide), hmiss] <;> rfl
        · simp only [List.mem_cons, List.mem_singleton, List.not_mem_nil, or_false] at ht
          rcases ht with ht | ht | ht | ht | ht <;>
            rw [ht, requiredParamCheck_not_mem _ ["move_to"] _ _ (by decide),
              requiredParamCheck_not_mem _ ["speak", "whisper", "shout"] _ _ (by decide),
              requiredParamCheck_mem _ _ _ _ (by decide), hmiss] <;> rfl
    refine ⟨key, ?_, rfl, rfl⟩
    unfold execute_action
    rw [hs]
    simp [pyLowerE, key]

/-- Witness for C4: the unregistered name `fly` and a `speak` request missing
its `message` parameter, against the default registry and a concrete actor. -/
theorem c4_unknown_or_missing_param_invalid_witness :
    (validate_action defaultHandlers [("action_name", PyVal.str "fly")] = .ok false ∧
     execute_action defaultHandlers [("action_name", PyVal.str "fly")]
        { name := "Pope Leo XIII" } =
       (.ok (invalidOutcome "fly"), { name := "Pope Leo XIII" }) ∧
     (invalidOutcome "fly").result = .invalid ∧
     (invalidOutcome "fly").state_changes = []) ∧
    (validate_action defaultHandlers
        [("action_name", PyVal.str "speak"), ("parameters", PyVal.dict [("tone", PyVal.str "low")])] = .ok false ∧
     execute_action defaultHandlers
        [("action_name", PyVal.str "speak"), ("parameters", PyVal.dict [("tone", PyVal.str "low")])]
        { name := "Pope Leo XIII" } =
       (.ok (invalidOutcome "speak"), { name := "Pope Leo XIII" }) ∧
     (invalidOutcome "speak").result = .invalid ∧
     (invalidOutcome "speak").state_changes = []) :=
  ⟨c4_unknown_or_missing_param_invalid.1 defaultHandlers
     [("action_name", PyVal.str "fly")] { name := "Pope Leo XIII" } "fly" rfl rfl,
   c4_unknown_or_missing_param_invalid.2 defaultHandlers
     [("action_name", PyVal.str "speak"), ("parameters", PyVal.dict [("tone", PyVal.str "low")])]
     { name := "Pope Leo XIII" } "speak" "message"
     [("tone", PyVal.str "low")] rfl
     (Or.inr (Or.inl (by decide))) rfl rfl rfl⟩

/-- C5: for every validated action whose handler raises, `execute_action`
catches the exception and returns a FAILED outcome whose message contains the
exception message; the exception is not propagated (the overall result is
`Except.ok`), and the actor returned is the one the handler left behind. -/
theorem c5_handler_exception_to_failed
    (mgr : HandlerMap) (action : List (String × PyVal)) (actor actor1 : ActorData)
    (an : String) (hdl : Handler) (e : PyErr)
    (hname : pyLowerE (dictGetD action "action_name" (.str "")) = .ok an)
    (hvalid : validate_action mgr action = .ok true)
    (hlook : mgr.lookup an = some hdl)
    (hrun : hdl (dictGetD action "parameters" (.dict [])) actor = (.error e, actor1)) :
    execute_action mgr action actor = (.ok (failedOutcome e), actor1) ∧
    (failedOutcome e).result = .failed ∧
    strContainsB (failedOutcome e).message e.msg = true := by
  refine ⟨?_, rfl, ?_⟩
  · unfold execute_action
    rw [hname]
    simp [hvalid, hlook, hrun]
  · exact strContainsB_append_right "Action failed due to error: " e.msg

/-- A registered custom handler that raises unconditionally, used to witness
the exception-to-FAILED conversion. -/
def boomHandler : Handler := fun _params actor =>
  (.error (.valueError "boom"), actor)

/-- Witness for C5: a registered raising handler on a concrete validated
action is converted to a FAILED outcome carrying the exception message. -/
theorem c5_handler_exception_to_failed_witness :
    execute_action (register_action defaultHandlers "explode" boomHandler)
        [("action_name", PyVal.str "explode")] { name := "Pope Leo XIII" } =
      (Except.ok (failedOutcome (.valueError "boom")), { name := "Pope Leo XIII" }) ∧
    (failedOutcome (.valueError "boom")).result = .failed ∧
    strContainsB (failedOutcome (.valueError "boom")).message
      (PyErr.valueError "boom").msg = true :=
  c5_handler_exception_to_failed
    (register_action defaultHandlers "explode" boomHandler)
    [("action_name", PyVal.str "explode")]
    { name := "Pope Leo XIII" } { name := "Pope Leo XIII" }
    "explode" boomHandler (.valueError "boom") rfl rfl rfl rfl

theorem prayFearReduction_nonneg (intensity : PyVal) :
    0 ≤ prayFearReduction intensity := by
  unfold prayFearReduction
  split_ifs <;> norm_num

theorem prayDeterminationIncrease_nonneg (intensity : PyVal) :
    0 ≤ prayDeterminationIncrease intensity := by
  unfold prayDeterminationIncrease
  split_ifs <;> norm_num

theorem showEmotionIntensityValue_bounds (intensity : PyVal) :
    0 ≤ showEmotionIntensityValue intensity ∧ showEmotionIntensityValue intensity ≤ 1 := by
  unfold showEmotionIntensityValue
  split_ifs <;> norm_num

/-- C6: when all of an actor's emotion values lie in `[0, 1]`, every emotion
value produced in the `emotion_changes` of the two emotion-affecting handlers
(the pray handler and the shared show-emotion handler) lies in `[0, 1]`,
whatever the parameters: clamping holds at both ends. -/
theorem c6_emotion_changes_clamped
    (emotions : List (String × ℚ)) (intensity : PyVal)
    (hall : ∀ p ∈ emotions, 0 ≤ p.2 ∧ p.2 ≤ 1) :
    (∀ q ∈ prayEmotionChanges emotions intensity, 0 ≤ q.2 ∧ q.2 ≤ 1) ∧
    (∀ emotion_type : String, ∀ q ∈ showEmotionChanges emotions emotion_type intensity,
        0 ≤ q.2 ∧ q.2 ≤ 1) := by
  constructor
  · intro q hq
    unfold prayEmotionChanges at hq
    rw [List.mem_append] at hq
    rcases hq with hq | hq
    · cases hf : emotions.lookup "fear" with
      | none => rw [hf] at hq; simp at hq
      | some f =>
        rw [hf] at hq
        simp only [List.mem_singleton] at hq
        subst hq
        have hfb := hall _ (lookup_eq_some_mem emotions "fear" f hf)
        have hr := prayFearReduction_nonneg intensity
        constructor
        · exact le_max_left 0 _
        · apply max_le (by norm_num)
          have : f - prayFearReduction intensity ≤ f := by linarith
          exact this.trans hfb.2
    · cases hd : emotions.lookup "determination" with
      | none => rw [hd] at hq; simp at hq
      | some d =>
        rw [hd] at hq
        simp only [List.mem_singleton] at hq
        subst hq
        have hdb := hall _ (lookup_eq_some_mem emotions "determination" d hd)
        have hi := prayDeterminationIncrease_nonneg intensity
        constructor
        · apply le_min (by norm_num)
          linarith [hdb.1]
        · exact min_le_left 1 _
  · intro emotion_type q hq
    unfold showEmotionChanges at hq
    cases hv : emotions.lookup emotion_type with
    | some v =>
      rw [hv] at hq
      simp only [List.mem_singleton] at hq
      subst hq
      have hvb := hall _ (lookup_eq_some_mem emotions emotion_type v hv)
      constructor
      · apply le_min (by norm_num)
        linarith [hvb.1]
      · exact min_le_left 1 _
    | none =>
      rw [hv] at hq
      simp only [List.mem_singleton] at hq
      subst hq
      exact showEmotionIntensityValue_bounds intensity

/-- Witness for C6 at the scenario actor's emotions and a concrete intensity. -/
theorem c6_emotion_changes_clamped_witness :
    (∀ q ∈ prayEmotionChanges [("fear", 3/5), ("determination", 1/2)] (.str "high"),
        0 ≤ q.2 ∧ q.2 ≤ 1) ∧
    (∀ emotion_type : String,
        ∀ q ∈ showEmotionChanges [("fear", 3/5), ("determination", 1/2)] emotion_type (.str "high"),
        0 ≤ q.2 ∧ q.2 ≤ 1) :=
  c6_emotion_changes_clamped [("fear", 3/5), ("determination", 1/2)] (.str "high")
    (by intro p hp; fin_cases hp <;> norm_num)

/-- The end-to-end scenario actor of the spec: emotions fear 0.6 and
determination 0.5. -/
def popeActor : ActorData :=
  { name := "Pope Leo XIII",
    cognitive_core := { emotions := [("fear", 3/5), ("determination", 1/2)] } }

/-- C7: the pray (calming) handler's fear delta is tiered by the `intensity`
parameter in three bands — fear is set to `max 0 (fear - 0.1/0.2/0.3)` for
low/medium/high — and the end-to-end scenario holds: executing `pray` with
`intensity="high"` on the actor with emotions `{fear: 0.6, determination: 0.5}`
yields `fear = 0.3` and `determination = 0.7` in the emotion changes. -/
theorem c7_pray_tiered_deltas :
    (∀ (emotions : List (String × ℚ)) (f : ℚ), emotions.lookup "fear" = some f →
        (prayEmotionChanges emotions (.str "low")).lookup "fear" = some (max 0 (f - 1/10)) ∧
        (prayEmotionChanges emotions (.str "medium")).lookup "fear" = some (max 0 (f - 2/10)) ∧
        (prayEmotionChanges emotions (.str "high")).lookup "fear" = some (max 0 (f - 3/10))) ∧
    (execute_action defaultHandlers
        [("action_name", .str "pray"), ("parameters", .dict [("intensity", .str "high")])]
        popeActor =
      (Except.ok
        { result := .success,
          message := "Pope Leo XIII prays with high intensity",
          state_changes :=
            [("spiritual_state", .str "praying"),
             ("emotion_changes",
              .dict [("fear", .float (3/10)), ("determination", .float (7/10))])] },
       addMemory popeActor "Prayed with high intensity for short duration")) := by
  constructor
  · intro emotions f hf
    refine ⟨?_, ?_, ?_⟩
    · unfold prayEmotionChanges
      rw [hf, show prayFearReduction (.str "low") = 1/10 from rfl]
      cases hd : emotions.lookup "determination" <;> simp [lookup_cons_ite]
    · unfold prayEmotionChanges
      rw [hf, show prayFearReduction (.str "medium") = 2/10 from rfl]
      cases hd : emotions.lookup "determination" <;> simp [lookup_cons_ite]
    · unfold prayEmotionChanges
      rw [hf, show prayFearReduction (.str "high") = 3/10 from rfl]
      cases hd : emotions.lookup "determination" <;> simp [lookup_cons_ite]
  · have h1 : execute_action defaultHandlers
        [("action_name", .str "pray"), ("parameters", .dict [("intensity", .str "high")])]
        popeActor =
      (Except.ok
        { result := .success,
          message := "Pope Leo XIII prays with high intensity",
          state_changes :=
            [("spiritual_state", .str "praying"),
             ("emotion_changes",
              floatDict (prayEmotionChanges popeActor.cognitive_core.emotions (.str "high")))] },
       addMemory popeActor "Prayed with high intensity for short duration") := rfl
    have h2 : prayEmotionChanges popeActor.cognitive_core.emotions (.str "high") =
        [("fear", 3/10), ("determination", 7/10)] := by
      show prayEmotionChanges [("fear", 3/5), ("determination", 1/2)] (.str "high") = _
      unfold prayEmotionChanges
      rw [show (([("fear", (3:ℚ)/5), ("determination", 1/2)]).lookup "fear") = some (3/5) from rfl,
        show (([("fear", (3:ℚ)/5), ("determination", 1/2)]).lookup "determination") = some (1/2) from rfl,
        show prayFearReduction (.str "high") = 3/10 from rfl,
        show prayDeterminationIncrease (.str "high") = 1/5 from rfl]
      norm_num
    rw [h1, h2]
    rfl

/-- Witness for C7's tier clause at the scenario actor's emotions. -/
theorem c7_pray_tiered_deltas_witness :
    (prayEmotionChanges [("fear", 3/5), ("determination", 1/2)] (.str "low")).lookup "fear" =
        some (max 0 (3/5 - 1/10)) ∧
    (prayEmotionChanges [("fear", 3/5), ("determination", 1/2)] (.str "medium")).lookup "fear" =
        some (max 0 (3/5 - 2/10)) ∧
    (prayEmotionChanges [("fear", 3/5), ("determination", 1/2)] (.str "high")).lookup "fear" =
        some (max 0 (3/5 - 3/10)) :=
  c7_pray_tiered_deltas.1 [("fear", 3/5), ("determination", 1/2)] (3/5) rfl

theorem applyEmotionChanges_ok (ekvs : List (String × PyVal)) (em : List (String × ℚ))
    (hnd : (ekvs.map Prod.fst).Nodup)
    (hfl : ∀ p ∈ ekvs, (asFloat p.2).isSome) :
    ∃ em1, applyEmotionChanges ekvs em = (.ok (), em1) ∧
      (∀ e v q, (e, v) ∈ ekvs → asFloat v = some q → em1.lookup e = some q) ∧
      (∀ e, e ∉ ekvs.map Prod.fst → em1.lookup e = em.lookup e) := by
  induction ekvs generalizing em with
  | nil =>
    refine ⟨em, rfl, ?_, ?_⟩
    · intro e v q h
      simp at h
    · intro e _
      rfl
  | cons p rest ih =>
    obtain ⟨e0, v0⟩ := p
    have hfl0 : (asFloat v0).isSome := hfl _ (List.mem_cons_self _ _)
    obtain ⟨q0, hq0⟩ := Option.isSome_iff_exists.mp hfl0
    have hnd1 : (rest.map Prod.fst).Nodup := by
      simp only [List.map_cons, List.nodup_cons] at hnd
      exact hnd.2
    have hnot : e0 ∉ rest.map Prod.fst := by
      simp only [List.map_cons, List.nodup_cons] at hnd
      exact hnd.1
    obtain ⟨em1, hrun, hmem, hun⟩ :=
      ih (dictSetQ em e0 q0) hnd1 (fun p hp => hfl _ (List.mem_cons_of_mem _ hp))
    refine ⟨em1, ?_, ?_, ?_⟩
    · unfold applyEmotionChanges
      rw [hq0]
      exact hrun
    · intro e v q hm hq
      rcases List.mem_cons.mp hm with heq | hm1
      · injection heq with h1 h2
        subst h1
        subst h2
        rw [hq] at hq0
        injection hq0 with h3
        subst h3
        rw [hun e hnot, lookup_dictSetQ, if_pos rfl]
      · exact hmem e v q hm1 hq
    · intro e he
      simp only [List.map_cons, List.mem_cons, not_or] at he
      obtain ⟨hne, hnr⟩ := he
      rw [hun e hnr, lookup_dictSetQ, if_neg hne]

/-- C8: applying an outcome's state changes (with distinct keys, as a Python
dict has, and float-valued emotion-change entries) processes every key: the
`emotion_changes` entry is merged into the emotions mapping by direct
replacement, every other key overwrites the actor's state at that key, keys
not mentioned are left unchanged (in state and in emotions), and the actor's
goals, name and description are untouched. -/
theorem c8_outcome_application
    (changes : List (String × PyVal)) (actor : ActorData)
    (hnd : (changes.map Prod.fst).Nodup)
    (hec : ∀ v, ("emotion_changes", v) ∈ changes →
        ∃ ekvs, v = PyVal.dict ekvs ∧ (ekvs.map Prod.fst).Nodup ∧
          ∀ p ∈ ekvs, (asFloat p.2).isSome) :
    ∃ actor1, applyStateChanges changes actor = (.ok (), actor1) ∧
      actor1.name = actor.name ∧
      actor1.description = actor.description ∧
      actor1.cognitive_core.current_goals = actor.cognitive_core.current_goals ∧
      (∀ k v, (k, v) ∈ changes → ¬ k = "emotion_changes" →
          actor1.state.lookup k = some v) ∧
      (∀ k, k ∉ changes.map Prod.fst → actor1.state.lookup k = actor.state.lookup k) ∧
      actor1.state.lookup "emotion_changes" = actor.state.lookup "emotion_changes" ∧
      (∀ ekvs, ("emotion_changes", PyVal.dict ekvs) ∈ changes →
          ∀ e v q, (e, v) ∈ ekvs → asFloat v = some q →
            actor1.cognitive_core.emotions.lookup e = some q) ∧
      (∀ e : String,
          (∀ ekvs, ("emotion_changes", PyVal.dict ekvs) ∈ changes →
              e ∉ ekvs.map Prod.fst) →
          actor1.cognitive_core.emotions.lookup e =
            actor.cognitive_core.emotions.lookup e) := by
  induction changes generalizing actor with
  | nil =>
    refine ⟨actor, rfl, rfl, rfl, rfl, ?_, ?_, rfl, ?_, ?_⟩
    · intro k v h
      simp at h
    · intro k _
      rfl
    · intro ekvs h
      simp at h
    · intro e _
      rfl
  | cons c rest ih =>
    obtain ⟨k0, v0⟩ := c
    have hnd1 : (rest.map Prod.fst).Nodup := by
      simp only [List.map_cons, List.nodup_cons] at hnd
      exact hnd.2
    have hknot : k0 ∉ rest.map Prod.fst := by
      simp only [List.map_cons, List.nodup_cons] at hnd
      exact hnd.1
    by_cases hk0 : k0 = "emotion_changes"
    · subst hk0
      obtain ⟨ekvs0, hv0, hend, hefl⟩ := hec v0 (List.mem_cons_self _ _)
      subst hv0
      obtain ⟨em1, herun, hemem, heun⟩ :=
        applyEmotionChanges_ok ekvs0 actor.cognitive_core.emotions hend hefl
      have hecnot : ∀ v, ("emotion_changes", v) ∈ rest → False := by
        intro v hv
        exact hknot (List.mem_map.mpr ⟨_, hv, rfl⟩)
      set actor2 : ActorData :=
        { actor with cognitive_core := { actor.cognitive_core with emotions := em1 } }
        with hactor2
      obtain ⟨actor1, hrun, hname, hdesc, hgoals, hset, hunch, hecst, hemo, hemun⟩ :=
        ih actor2 hnd1 (fun v hv => absurd hv (fun hh => hecnot v hh))
      refine ⟨actor1, ?_, ?_, ?_, ?_, ?_, ?_, ?_, ?_, ?_⟩
      · unfold applyStateChanges
        simp only [beq_self_eq_true, if_true]
        rw [herun]
        exact hrun
      · exact hname
      · exact hdesc
      · exact hgoals
      · intro k v hm hne
        rcases List.mem_cons.mp hm with heq | hm1
        · injection heq with h1 h2
          exact absurd h1.symm (fun hh => hne hh.symm)
        · exact hset k v hm1 hne
      · intro k hk
        simp only [List.map_cons, List.mem_cons, not_or] at hk
        exact hunch k hk.2
      · exact hecst
      · intro ekvs hm e v q hev hq
        rcases List.mem_cons.mp hm with heq | hm1
        · injection heq with h1 h2
          injection h2 with h3
          subst h3
          have h4 : ∀ ekvs1, ("emotion_changes", PyVal.dict ekvs1) ∈ rest →
              e ∉ ekvs1.map Prod.fst := by
            intro ekvs1 hh
            exact absurd (hecnot _ hh) (fun hh1 => hh1)
          rw [hemun e h4]
          exact hemem e v q hev hq
        · exact absurd (hecnot _ hm1) (fun hh => hh)
      · intro e hcond
        have h4 : ∀ ekvs1, ("emotion_changes", PyVal.dict ekvs1) ∈ rest →
            e ∉ ekvs1.map Prod.fst := by
          intro ekvs1 hh
          exact absurd (hecnot _ hh) (fun hh1 => hh1)
        rw [hemun e h4]
        exact heun e (hcond ekvs0 (List.mem_cons_self _ _))
    · have hbne : (k0 == "emotion_changes") = false := by
        rw [beq_eq_false_iff_ne]
        exact hk0
      set actor2 : ActorData := { actor with state := dictSet actor.state k0 v0 }
        with hactor2
      obtain ⟨actor1, hrun, hname, hdesc, hgoals, hset, hunch, hecst, hemo, hemun⟩ :=
        ih actor2 hnd1 (fun v hv => hec v (List.mem_cons_of_mem _ hv))
      refine ⟨actor1, ?_, ?_, ?_, ?_, ?_, ?_, ?_, ?_, ?_⟩
      · unfold applyStateChanges
        simp only [hbne, Bool.false_eq_true, if_false]
        exact hrun
      · exact hname
      · exact hdesc
      · exact hgoals
      · intro k v hm hne
        rcases List.mem_cons.mp hm with heq | hm1
        · injection heq with h1 h2
          subst h1
          subst h2
          rw [hunch k hknot]
          show (dictSet actor.state k v).lookup k = some v
          rw [lookup_dictSet, if_pos rfl]
        · exact hset k v hm1 hne
      · intro k hk
        simp only [List.map_cons, List.mem_cons, not_or] at hk
        rw [hunch k hk.2]
        show (dictSet actor.state k0 v0).lookup k = actor.state.lookup k
        rw [lookup_dictSet, if_neg hk.1]
      · rw [hecst]
        show (dictSet actor.state k0 v0).lookup "emotion_changes" =
          actor.state.lookup "emotion_changes"
        rw [lookup_dictSet, if_neg (fun hh => hk0 hh.symm)]
      · intro ekvs hm e v q hev hq
        rcases List.mem_cons.mp hm with heq | hm1
        · injection heq with h1 h2
          exact absurd h1.symm hk0
        · exact hemo ekvs hm1 e v q hev hq
      · intro e hcond
        exact hemun e (fun ekvs1 hh => hcond ekvs1 (List.mem_cons_of_mem _ hh))

/-- Witness for C8: applying a concrete outcome (a state key plus an
emotion-changes entry) to the scenario actor succeeds, and the emotion is
merged by direct replacement. -/
theorem c8_outcome_application_witness :
    ∃ actor1, applyStateChanges
        [("spiritual_state", PyVal.str "praying"),
         ("emotion_changes", PyVal.dict [("fear", PyVal.float (3/10))])] popeActor =
      (Except.ok (), actor1) ∧
      actor1.cognitive_core.emotions.lookup "fear" = some (3/10) := by
  obtain ⟨actor1, hrun, _, _, _, _, _, _, hemo, _⟩ :=
    c8_outcome_application
      [("spiritual_state", PyVal.str "praying"),
       ("emotion_changes", PyVal.dict [("fear", PyVal.float (3/10))])] popeActor
      (by decide)
      (by
        intro v hv
        rcases List.mem_cons.mp hv with heq | hm
        · injection heq with h1 h2
          exact absurd h1 (by decide)
        · rw [List.mem_singleton] at hm
          injection hm with h1 h2
          refine ⟨[("fear", PyVal.float (3/10))], h2, by decide, ?_⟩
          intro p hp
          rw [List.mem_singleton] at hp
          subst hp
          rfl)
  refine ⟨actor1, hrun, ?_⟩
  exact hemo [("fear", PyVal.float (3/10))]
    (List.mem_cons_of_mem _ (List.mem_singleton.mpr rfl))
    "fear" (PyVal.float (3/10)) (3/10) (List.mem_singleton.mpr rfl) rfl

/-- C9: prompt formulation is deterministic — two actors agreeing on name,
description, state mapping, goals and emotions (whatever their properties or
short-term memory) yield byte-identical prompts for the same recent-message
history — and the current-state label falls back through `actor_state`, then
`status`, then defaults to `"neutral"`. -/
theorem c9_prompt_deterministic :
    (∀ (a b : ActorData) (messages : List AgnoMsg),
        a.name = b.name → a.description = b.description → a.state = b.state →
        a.cognitive_core.current_goals = b.cognitive_core.current_goals →
        a.cognitive_core.emotions = b.cognitive_core.emotions →
        generate_prompt a messages = generate_prompt b messages) ∧
    (∀ (state : List (String × PyVal)) (v : PyVal),
        state.lookup "actor_state" = some v → currentStateLabel state = v) ∧
    (∀ (state : List (String × PyVal)) (v : PyVal),
        state.lookup "actor_state" = Option.none → state.lookup "status" = some v →
        currentStateLabel state = v) ∧
    (∀ state : List (String × PyVal),
        state.lookup "actor_state" = Option.none → state.lookup "status" = Option.none →
        currentStateLabel state = .str "neutral") := by
  refine ⟨?_, ?_, ?_, ?_⟩
  · intro a b messages h1 h2 h3 h4 h5
    unfold generate_prompt
    rw [h1, h2, h3, h4, h5]
  · intro state v h
    unfold currentStateLabel
    rw [h]
    rfl
  · intro state v h1 h2
    unfold currentStateLabel
    rw [h1, h2]
    rfl
  · intro state h1 h2
    unfold currentStateLabel
    rw [h1, h2]
    rfl

/-- Witness for C9: two snapshots that differ only in properties and
short-term memory produce the same prompt, and a concrete `status`-only state
yields that status as the label. -/
theorem c9_prompt_deterministic_witness :
    generate_prompt
      { name := "Pope Leo XIII", description := some "A pope in his chapel",
        state := [("status", PyVal.str "praying")],
        cognitive_core := { current_goals := [{ description := "Understand the vision" }],
                            emotions := [("awe", 9/10)],
                            short_term_memory := ["a vision appeared"] } }
      [{ role := "user", content := PyVal.str "What do you see?" }] =
    generate_prompt
      { name := "Pope Leo XIII", description := some "A pope in his chapel",
        properties := [("rank", PyVal.str "pope")],
        state := [("status", PyVal.str "praying")],
        cognitive_core := { current_goals := [{ description := "Understand the vision" }],
                            emotions := [("awe", 9/10)] } }
      [{ role := "user", content := PyVal.str "What do you see?" }] ∧
    currentStateLabel [("status", PyVal.str "praying")] = PyVal.str "praying" :=
  ⟨c9_prompt_deterministic.1 _ _ _ rfl rfl rfl rfl rfl,
   c9_prompt_deterministic.2.2.1 _ _ rfl rfl⟩

/-- C10: all six `show_emotion_*` actions are registered to the one shared
handler `_handle_show_emotion`, which derives the emotion to change from the
`original_action` parameter; whenever that parameter is omitted, the handler's
emotion changes touch exactly the emotion labelled `"neutral"`, whichever
`show_emotion_*` action was requested. -/
theorem c10_show_emotion_dispatch :
    (defaultHandlers.lookup "show_emotion_fear" = some handle_show_emotion ∧
     defaultHandlers.lookup "show_emotion_awe" = some handle_show_emotion ∧
     defaultHandlers.lookup "show_emotion_determination" = some handle_show_emotion ∧
     defaultHandlers.lookup "show_emotion_sadness" = some handle_show_emotion ∧
     defaultHandlers.lookup "show_emotion_joy" = some handle_show_emotion ∧
     defaultHandlers.lookup "show_emotion_anger" = some handle_show_emotion) ∧
    (∀ (pkvs : List (String × PyVal)) (actor : ActorData),
        pkvs.lookup "original_action" = Option.none →
        ∃ (outcome : ActionOutcome) (q : ℚ),
          (handle_show_emotion (.dict pkvs) actor).1 = Except.ok outcome ∧
          outcome.state_changes =
            [("emotion_changes", PyVal.dict [("neutral", PyVal.float q)])]) := by
  refine ⟨⟨rfl, rfl, rfl, rfl, rfl, rfl⟩, ?_⟩
  intro pkvs actor h
  have hact : dictGetD pkvs "original_action" (.str "show_emotion") = .str "show_emotion" := by
    simp [dictGetD, h]
  simp only [handle_show_emotion]
  rw [hact, show showEmotionType (.str "show_emotion") = .ok "neutral" from rfl]
  cases hv : actor.cognitive_core.emotions.lookup "neutral" with
  | some v =>
    refine ⟨_, min 1 (v + 1/10), rfl, ?_⟩
    simp [showEmotionChanges, hv, floatDict]
  | none =>
    refine ⟨_, showEmotionIntensityValue (dictGetD pkvs "intensity" (.str "medium")), rfl, ?_⟩
    simp [showEmotionChanges, hv, floatDict]

/-- Witness for C10: invoking the shared handler with empty parameters on the
scenario actor updates the `"neutral"` emotion. -/
theorem c10_show_emotion_dispatch_witness :
    ∃ (outcome : ActionOutcome) (q : ℚ),
      (handle_show_emotion (.dict []) popeActor).1 = Except.ok outcome ∧
      outcome.state_changes =
        [("emotion_changes", PyVal.dict [("neutral", PyVal.float q)])] :=
  c10_show_emotion_dispatch.2 [] popeActor rfl
